import Mathlib

/-!
Verification of the Cursor & Origin Alignment add-on (src/cursor_align_addon.py).

The add-on's operators are shallowly embedded as pure functions over a scene
state.  Scalars are exact rationals; the host application's math library
(square root, trigonometric functions, quaternion conversions) and the host's
own operators (origin_set, snapping, menu calls) are supplied as parameters in
a `Host` structure, since their implementations live in the host, not in this
repository.  Each operator's `execute` method becomes a function from the
scene state to an outcome (result code, reports, new state).
-/

namespace CursorAlign

/-- Rational 3-component vector, modelling a mathutils Vector. -/
structure Vec3 where
  x : ℚ
  y : ℚ
  z : ℚ
deriving DecidableEq

/-- Componentwise vector addition. -/
def Vec3.add (a b : Vec3) : Vec3 := ⟨a.x + b.x, a.y + b.y, a.z + b.z⟩

/-- Componentwise vector subtraction. -/
def Vec3.sub (a b : Vec3) : Vec3 := ⟨a.x - b.x, a.y - b.y, a.z - b.z⟩

/-- Scalar multiple of a vector. -/
def Vec3.smul (c : ℚ) (a : Vec3) : Vec3 := ⟨c * a.x, c * a.y, c * a.z⟩

/-- Dot product. -/
def Vec3.dot (a b : Vec3) : ℚ := a.x * b.x + a.y * b.y + a.z * b.z

/-- Squared Euclidean length. -/
def Vec3.len2 (a : Vec3) : ℚ := a.x ^ 2 + a.y ^ 2 + a.z ^ 2

/-- Euler angles (radians), modelling a mathutils Euler in XYZ mode. -/
structure Euler where
  x : ℚ
  y : ℚ
  z : ℚ
deriving DecidableEq

/-- Quaternion, modelling a mathutils Quaternion. -/
structure Quat where
  w : ℚ
  x : ℚ
  y : ℚ
  z : ℚ
deriving DecidableEq

/-- Row-major 3x3 matrix, modelling a mathutils 3x3 Matrix. -/
structure Mat3 where
  m00 : ℚ
  m01 : ℚ
  m02 : ℚ
  m10 : ℚ
  m11 : ℚ
  m12 : ℚ
  m20 : ℚ
  m21 : ℚ
  m22 : ℚ
deriving DecidableEq

/-- Row-major 4x4 matrix, modelling a mathutils 4x4 Matrix. -/
structure Mat4 where
  m00 : ℚ
  m01 : ℚ
  m02 : ℚ
  m03 : ℚ
  m10 : ℚ
  m11 : ℚ
  m12 : ℚ
  m13 : ℚ
  m20 : ℚ
  m21 : ℚ
  m22 : ℚ
  m23 : ℚ
  m30 : ℚ
  m31 : ℚ
  m32 : ℚ
  m33 : ℚ
deriving DecidableEq

/-- Matrix.to_4x4: embed a 3x3 matrix into a 4x4 matrix. -/
def Mat3.to_4x4 (m : Mat3) : Mat4 :=
  ⟨m.m00, m.m01, m.m02, 0,
   m.m10, m.m11, m.m12, 0,
   m.m20, m.m21, m.m22, 0,
   0, 0, 0, 1⟩

/-- Matrix.to_3x3: upper-left 3x3 block of a 4x4 matrix. -/
def Mat4.to_3x3 (m : Mat4) : Mat3 :=
  ⟨m.m00, m.m01, m.m02, m.m10, m.m11, m.m12, m.m20, m.m21, m.m22⟩

/-- Matrix.to_translation: the translation column of a 4x4 matrix. -/
def Mat4.to_translation (m : Mat4) : Vec3 := ⟨m.m03, m.m13, m.m23⟩

/-- Matrix.to_scale: column norms of the 3x3 block, using the host square root. -/
def Mat4.to_scale (sqrtF : ℚ → ℚ) (m : Mat4) : Vec3 :=
  ⟨sqrtF (m.m00 ^ 2 + m.m10 ^ 2 + m.m20 ^ 2),
   sqrtF (m.m01 ^ 2 + m.m11 ^ 2 + m.m21 ^ 2),
   sqrtF (m.m02 ^ 2 + m.m12 ^ 2 + m.m22 ^ 2)⟩

/-- Assignment to the translation column of a 4x4 matrix. -/
def Mat4.setTranslation (m : Mat4) (v : Vec3) : Mat4 :=
  { m with m03 := v.x, m13 := v.y, m23 := v.z }

/-- First three entries of row i of a 4x4 matrix (the slice m[i][:3]). -/
def Mat4.row3 (m : Mat4) (i : Nat) : Vec3 :=
  match i with
  | 0 => ⟨m.m00, m.m01, m.m02⟩
  | 1 => ⟨m.m10, m.m11, m.m12⟩
  | _ => ⟨m.m20, m.m21, m.m22⟩

/-- Matrix product of 3x3 matrices. -/
def Mat3.mul (a b : Mat3) : Mat3 :=
  ⟨a.m00 * b.m00 + a.m01 * b.m10 + a.m02 * b.m20,
   a.m00 * b.m01 + a.m01 * b.m11 + a.m02 * b.m21,
   a.m00 * b.m02 + a.m01 * b.m12 + a.m02 * b.m22,
   a.m10 * b.m00 + a.m11 * b.m10 + a.m12 * b.m20,
   a.m10 * b.m01 + a.m11 * b.m11 + a.m12 * b.m21,
   a.m10 * b.m02 + a.m11 * b.m12 + a.m12 * b.m22,
   a.m20 * b.m00 + a.m21 * b.m10 + a.m22 * b.m20,
   a.m20 * b.m01 + a.m21 * b.m11 + a.m22 * b.m21,
   a.m20 * b.m02 + a.m21 * b.m12 + a.m22 * b.m22⟩

/-- Elementary rotation about X with given cosine and sine values. -/
def rotX (c s : ℚ) : Mat3 := ⟨1, 0, 0, 0, c, -s, 0, s, c⟩

/-- Elementary rotation about Y with given cosine and sine values. -/
def rotY (c s : ℚ) : Mat3 := ⟨c, 0, s, 0, 1, 0, -s, 0, c⟩

/-- Elementary rotation about Z with given cosine and sine values. -/
def rotZ (c s : ℚ) : Mat3 := ⟨c, -s, 0, s, c, 0, 0, 0, 1⟩

/-- Euler.to_matrix for the XYZ rotation order, using host cosine and sine. -/
def eulerToMat3 (cosF sinF : ℚ → ℚ) (e : Euler) : Mat3 :=
  (rotZ (cosF e.z) (sinF e.z)).mul ((rotY (cosF e.y) (sinF e.y)).mul (rotX (cosF e.x) (sinF e.x)))

/-- Rotation axis choice of the rotate and flip operators. -/
inductive Axis
  | X
  | Y
  | Z
deriving DecidableEq

/-- Rotation direction choice of the rotate operators. -/
inductive Direction
  | POS
  | NEG
deriving DecidableEq

/-- The rotation_step enum of CursorAlignProperties. -/
inductive RotationStep
  | step90
  | step45
  | step30
  | step15
  | CUSTOM
deriving DecidableEq

/-- The pie_menu_key enum of CursorAlignProperties. -/
inductive PieKey
  | ALT
  | CTRL
  | SHIFT
  | NONE
deriving DecidableEq

/-- Context mode: edit-mesh mode versus any other mode. -/
inductive Mode
  | OBJECT
  | EDIT_MESH
deriving DecidableEq

/-- The orientation enum of CURSOR_OT_set_preset_orientation. -/
inductive Preset
  | FRONT
  | RIGHT
  | TOP
  | BACK
  | LEFT
  | BOTTOM
deriving DecidableEq

/-- Per-scene settings stored by the add-on (CursorAlignProperties). -/
structure CursorAlignProps where
  rotation_step : RotationStep
  custom_step : ℚ
  use_snap_menu : Bool
  use_pie_menu : Bool
  pie_menu_key : PieKey
deriving DecidableEq

/-- Default values of CursorAlignProperties as declared in the source. -/
def default_props : CursorAlignProps := ⟨RotationStep.step90, 22.5, true, false, PieKey.ALT⟩

/-- Clamping performed by the host on assignment to the custom_step
FloatProperty, whose declared hard range is min 0.1, max 360. -/
def clamp_custom_step (v : ℚ) : ℚ := max (1/10) (min 360 v)

/-- Assignment to the custom_step property, clamped by the host. -/
def set_custom_step (v : ℚ) (p : CursorAlignProps) : CursorAlignProps :=
  { p with custom_step := clamp_custom_step v }

/-- The 3D cursor: location and Euler rotation (XYZ mode). -/
structure Cursor3D where
  location : Vec3
  rotation_euler : Euler
deriving DecidableEq

/-- A scene object: location, Euler rotation, world matrix and selection flag. -/
structure SceneObject where
  location : Vec3
  rotation_euler : Euler
  matrix_world : Mat4
  selected : Bool
deriving DecidableEq

/-- A mesh face as seen through bmesh: selection flag and normal. -/
structure MeshFace where
  select : Bool
  normal : Vec3
deriving DecidableEq

/-- Space/area type: the 3D viewport versus any other editor. -/
inductive SpaceType
  | VIEW_3D
  | OTHER
deriving DecidableEq

/-- Region type inside an area. -/
inductive RegionType
  | WINDOW
  | OTHER
deriving DecidableEq

/-- A region of an area; view_rotation and view_matrix are absent when the
corresponding attribute access would raise AttributeError. -/
structure Region3D where
  rtype : RegionType
  view_rotation : Option Quat
  view_matrix : Option Mat4
deriving DecidableEq

/-- A space of an area; only its type is inspected by the add-on. -/
structure Space3D where
  stype : SpaceType
deriving DecidableEq

/-- An area of the current screen. -/
structure ScreenArea where
  atype : SpaceType
  spaces : List Space3D
  regions : List Region3D
deriving DecidableEq

/-- The scene and context state the operators read and write. -/
structure SceneState where
  mode : Mode
  cursor : Cursor3D
  props : CursorAlignProps
  objects : List SceneObject
  active_object : Option Nat
  edit_faces : List MeshFace
  areas : List ScreenArea
  transform_orientations : List (String × Mat4)
  machine_tools : Bool
deriving DecidableEq

/-- Host-provided functions the add-on calls but does not implement: the
mathutils numeric kernel and the built-in operators reached via bpy.ops. -/
structure Host where
  pi : ℚ
  sqrtF : ℚ → ℚ
  cosF : ℚ → ℚ
  sinF : ℚ → ℚ
  rotation_difference : Vec3 → Vec3 → Quat
  quat_to_mat3 : Quat → Mat3
  mat3_to_euler : Mat3 → Euler
  quat_to_euler : Quat → Euler
  origin_set : SceneState → SceneState
  snap_selected_to_cursor : Bool → Bool → SceneState → SceneState
  snap_cursor_to_selected : SceneState → SceneState
  call_menu : String → SceneState → SceneState
  create_orientation : String → SceneState → SceneState

/-- Report severity levels used by the add-on. -/
inductive ReportLevel
  | WARNING
  | INFO
deriving DecidableEq

/-- Operator return codes of the host. -/
inductive OpResult
  | FINISHED
  | CANCELLED
  | RUNNING_MODAL
  | PASS_THROUGH
deriving DecidableEq

/-- Result of one execute call: return code, reports issued, new state. -/
structure Outcome where
  result : OpResult
  reports : List (ReportLevel × String)
  state : SceneState
deriving DecidableEq

/-- An execute that reports a warning and returns CANCELLED without touching
the state. -/
def cancelled (msg : String) (st : SceneState) : Outcome :=
  ⟨OpResult.CANCELLED, [(ReportLevel.WARNING, msg)], st⟩

/-- An execute that returns FINISHED with the given new state. -/
def finished (st : SceneState) : Outcome := ⟨OpResult.FINISHED, [], st⟩

/-- context.selected_objects. -/
def selected_objects (st : SceneState) : List SceneObject :=
  st.objects.filter (·.selected)

/-- Indices of the selected objects, in scene order. -/
def selected_indices (st : SceneState) : List Nat :=
  (List.range st.objects.length).filter (fun i => ((st.objects[i]?).map (·.selected)).getD false)

/-- context.active_object. -/
def get_active_object (st : SceneState) : Option SceneObject :=
  st.active_object.bind (fun i => st.objects[i]?)

/-- math.radians: degrees to radians. -/
def radians (host : Host) (deg : ℚ) : ℚ := deg * host.pi / 180

/-- get_step: retrieve the rotation step in radians based on scene settings. -/
def get_step (host : Host) (scene : SceneState) : ℚ :=
  let props := scene.props
  let angle_deg : ℚ :=
    match props.rotation_step with
    | RotationStep.CUSTOM => props.custom_step
    | RotationStep.step90 => 90
    | RotationStep.step45 => 45
    | RotationStep.step30 => 30
    | RotationStep.step15 => 15
  radians host angle_deg

/-- Reduction of an angle modulo 2*pi into the interval [-pi, pi]. -/
def wrapAngle (pi q : ℚ) : ℚ := q - 2 * pi * round (q / (2 * pi))

/-- Euler.normalized, per the source comment: keep values within [-pi, pi].
Each component is reduced modulo 2*pi into [-pi, pi]. -/
def Euler.normalized (e : Euler) (pi : ℚ) : Euler :=
  ⟨wrapAngle pi e.x, wrapAngle pi e.y, wrapAngle pi e.z⟩

/-- rotate_euler: copy of the Euler with the given axis rotated by delta
radians, then normalized. -/
def rotate_euler (pi : ℚ) (euler : Euler) (axis : Axis) (delta : ℚ) : Euler :=
  let new_eul : Euler :=
    match axis with
    | Axis.X => { euler with x := euler.x + delta }
    | Axis.Y => { euler with y := euler.y + delta }
    | Axis.Z => { euler with z := euler.z + delta }
  new_eul.normalized pi

/-- copy_object_rotation_to_cursor: copy an object world rotation to the
cursor via matrix_world.to_3x3().to_euler(cursor.rotation_mode). -/
def copy_object_rotation_to_cursor (host : Host) (obj : SceneObject) (cursor : Cursor3D) : Cursor3D :=
  { cursor with rotation_euler := host.mat3_to_euler obj.matrix_world.to_3x3 }

/-- apply_cursor_rotation_to_object: set an object world rotation to the
cursor orientation, keeping translation and scale components. -/
def apply_cursor_rotation_to_object (host : Host) (cursor : Cursor3D) (obj : SceneObject) : SceneObject :=
  let cur_rot := eulerToMat3 host.cosF host.sinF cursor.rotation_euler
  let obj_mat := obj.matrix_world
  let scale := obj_mat.to_scale host.sqrtF
  let loc := obj_mat.to_translation
  let new_mat := cur_rot.to_4x4
  let new_mat := { new_mat with
    m00 := new_mat.m00 * scale.x, m11 := new_mat.m11 * scale.y, m22 := new_mat.m22 * scale.z }
  let new_mat := new_mat.setTranslation loc
  { obj with matrix_world := new_mat }

/-- cursor.matrix: the cursor rotation matrix with its location as
translation. -/
def cursor_matrix (host : Host) (cursor : Cursor3D) : Mat4 :=
  ((eulerToMat3 host.cosF host.sinF cursor.rotation_euler).to_4x4).setTranslation cursor.location

/-- CURSOR_OT_reset_orientation.execute. -/
def CURSOR_OT_reset_orientation_execute (st : SceneState) : Outcome :=
  finished { st with cursor := { st.cursor with rotation_euler := ⟨0, 0, 0⟩ } }

/-- CURSOR_OT_rotate_axis.execute. -/
def CURSOR_OT_rotate_axis_execute (host : Host) (axis : Axis) (direction : Direction)
    (st : SceneState) : Outcome :=
  let step_rad := get_step host st
  let delta := if direction = Direction.POS then step_rad else -step_rad
  finished { st with cursor :=
    { st.cursor with rotation_euler := rotate_euler host.pi st.cursor.rotation_euler axis delta } }

/-- CURSOR_OT_flip_axis.execute. -/
def CURSOR_OT_flip_axis_execute (axis : Axis) (st : SceneState) : Outcome :=
  let eul := st.cursor.rotation_euler
  let eul : Euler :=
    match axis with
    | Axis.X => { eul with x := -eul.x }
    | Axis.Y => { eul with y := -eul.y }
    | Axis.Z => { eul with z := -eul.z }
  finished { st with cursor := { st.cursor with rotation_euler := eul } }

/-- CURSOR_OT_copy_from_object.execute. -/
def CURSOR_OT_copy_from_object_execute (host : Host) (st : SceneState) : Outcome :=
  match get_active_object st with
  | none => cancelled ("No active object to copy from") st
  | some obj => finished { st with cursor := copy_object_rotation_to_cursor host obj st.cursor }

/-- CURSOR_OT_apply_to_object.execute. -/
def CURSOR_OT_apply_to_object_execute (host : Host) (st : SceneState) : Outcome :=
  if selected_objects st = [] then cancelled ("No objects selected") st
  else
    let newObjs := st.objects.map (fun o =>
      if o.selected then apply_cursor_rotation_to_object host st.cursor o else o)
    finished { st with objects := newObjs }

/-- Attempted read of a view rotation from one region: region.data.view_rotation
converted to Euler, else the view_matrix fallback, else AttributeError. -/
def region_view_euler (host : Host) (r : Region3D) : Option Euler :=
  match r.view_rotation with
  | some q => some (host.quat_to_euler q)
  | none =>
    match r.view_matrix with
    | some m => some (host.mat3_to_euler m.to_3x3)
    | none => none

/-- The nested search of CURSOR_OT_align_to_view.execute over areas, spaces
and regions: the first WINDOW region of a VIEW_3D area whose data yields a
rotation. -/
def find_view_euler (host : Host) (st : SceneState) : Option Euler :=
  st.areas.findSome? (fun area =>
    if area.atype = SpaceType.VIEW_3D then
      area.spaces.findSome? (fun space =>
        if space.stype = SpaceType.VIEW_3D then
          area.regions.findSome? (fun region =>
            if region.rtype = RegionType.WINDOW then region_view_euler host region else none)
        else none)
    else none)

/-- CURSOR_OT_align_to_view.execute. -/
def CURSOR_OT_align_to_view_execute (host : Host) (st : SceneState) : Outcome :=
  match find_view_euler host st with
  | some eul => finished { st with cursor := { st.cursor with rotation_euler := eul } }
  | none => cancelled ("Could not determine view orientation") st

/-- The selected faces of the edited mesh. -/
def selected_faces (st : SceneState) : List MeshFace :=
  st.edit_faces.filter (·.select)

/-- The running sum of face normals accumulated by the avg_normal loop. -/
def sum_face_normals (faces : List MeshFace) : Vec3 :=
  faces.foldl (fun acc f => ⟨acc.x + f.normal.x, acc.y + f.normal.y, acc.z + f.normal.z⟩) ⟨0, 0, 0⟩

/-- CURSOR_OT_align_to_surface.execute. -/
def CURSOR_OT_align_to_surface_execute (host : Host) (st : SceneState) : Outcome :=
  if st.mode ≠ Mode.EDIT_MESH then cancelled ("Must be in Edit Mode with faces selected") st
  else
    let sel := selected_faces st
    if sel = [] then cancelled ("No faces selected") st
    else
      let avg_normal := sum_face_normals sel
      let length := host.sqrtF (avg_normal.x ^ 2 + avg_normal.y ^ 2 + avg_normal.z ^ 2)
      if 0 < length then
        let normal_vec : Vec3 := ⟨avg_normal.x / length, avg_normal.y / length, avg_normal.z / length⟩
        let up_vec : Vec3 := ⟨0, 0, 1⟩
        if |normal_vec.dot up_vec| < 0.99 then
          let rotation_matrix := host.quat_to_mat3 (host.rotation_difference normal_vec up_vec)
          finished { st with cursor :=
            { st.cursor with rotation_euler := host.mat3_to_euler rotation_matrix } }
        else
          finished { st with cursor := { st.cursor with rotation_euler := ⟨0, 0, 0⟩ } }
      else cancelled ("Could not calculate surface normal") st

/-- CURSOR_OT_set_preset_orientation.execute. -/
def CURSOR_OT_set_preset_orientation_execute (orientation : Preset) (st : SceneState) : Outcome :=
  let rot : Euler :=
    match orientation with
    | Preset.FRONT => ⟨0, 0, 0⟩
    | Preset.RIGHT => ⟨0, 0, -1.570796⟩
    | Preset.TOP => ⟨1.570796, 0, 0⟩
    | Preset.BACK => ⟨0, 0, 3.141593⟩
    | Preset.LEFT => ⟨0, 0, 1.570796⟩
    | Preset.BOTTOM => ⟨-1.570796, 0, 0⟩
  finished { st with cursor := { st.cursor with rotation_euler := rot } }

/-- CURSOR_OT_set_to_selection_center.execute. -/
def CURSOR_OT_set_to_selection_center_execute (st : SceneState) : Outcome :=
  if selected_objects st = [] then cancelled ("No objects selected") st
  else
    let center := (selected_objects st).foldl
      (fun (c : Vec3) o => ⟨c.x + o.location.x, c.y + o.location.y, c.z + o.location.z⟩) ⟨0, 0, 0⟩
    let count : Nat := (selected_objects st).length
    if 0 < count then
      finished { st with cursor := { st.cursor with location :=
        ⟨center.x / (count : ℚ), center.y / (count : ℚ), center.z / (count : ℚ)⟩ } }
    else finished st

/-- CURSOR_OT_set_to_view_center.execute. -/
def CURSOR_OT_set_to_view_center_execute (st : SceneState) : Outcome :=
  finished { st with cursor := { st.cursor with location := ⟨0, 0, 0⟩ } }

/-- CURSOR_OT_machine_tools_menu.execute. -/
def CURSOR_OT_machine_tools_menu_execute (host : Host) (st : SceneState) : Outcome :=
  finished (host.call_menu ("VIEW3D_MT_cursor_align_machine_tools") st)

/-- OBJECT_OT_origin_to_cursor.execute. -/
def OBJECT_OT_origin_to_cursor_execute (host : Host) (st : SceneState) : Outcome :=
  if selected_objects st = [] then cancelled ("No objects selected") st
  else
    let reports :=
      if st.machine_tools then
        [(ReportLevel.INFO,
          "Consider using Machine Tools \x27machin3.origin_to_cursor\x27 for advanced options")]
      else []
    ⟨OpResult.FINISHED, reports, host.origin_set st⟩

/-- OBJECT_OT_rotate_axis.execute (bl_idname object.rotate_axis_step). -/
def OBJECT_OT_rotate_axis_execute (host : Host) (axis : Axis) (direction : Direction)
    (st : SceneState) : Outcome :=
  if selected_objects st = [] then cancelled ("No objects selected") st
  else
    let step_rad := get_step host st
    let delta := if direction = Direction.POS then step_rad else -step_rad
    let upd : SceneObject → SceneObject := fun o =>
      if o.selected then
        let eul : Euler :=
          match axis with
          | Axis.X => { o.rotation_euler with x := o.rotation_euler.x + delta }
          | Axis.Y => { o.rotation_euler with y := o.rotation_euler.y + delta }
          | Axis.Z => { o.rotation_euler with z := o.rotation_euler.z + delta }
        { o with rotation_euler := eul }
      else o
    finished { st with objects := st.objects.map upd }

/-- OBJECT_OT_reset_orientation.execute. -/
def OBJECT_OT_reset_orientation_execute (st : SceneState) : Outcome :=
  if selected_objects st = [] then cancelled ("No objects selected") st
  else
    let newObjs := st.objects.map (fun o =>
      if o.selected then { o with rotation_euler := ⟨0, 0, 0⟩ } else o)
    finished { st with objects := newObjs }

/-- OBJECT_OT_align_to_cursor.execute. -/
def OBJECT_OT_align_to_cursor_execute (host : Host) (move_objects use_rotation : Bool)
    (st : SceneState) : Outcome :=
  if selected_objects st = [] then cancelled ("No objects selected") st
  else finished (host.snap_selected_to_cursor (!move_objects) use_rotation st)

/-- OBJECT_OT_snap_cursor_to_selected.execute (bl_idname object.cursor_to_selected). -/
def OBJECT_OT_snap_cursor_to_selected_execute (host : Host) (st : SceneState) : Outcome :=
  if selected_objects st = [] ∧ st.mode ≠ Mode.EDIT_MESH then cancelled ("Nothing selected") st
  else finished (host.snap_cursor_to_selected st)

/-- OBJECT_OT_snap_selected_to_cursor.execute (bl_idname object.selected_to_cursor). -/
def OBJECT_OT_snap_selected_to_cursor_execute (host : Host) (use_offset : Bool)
    (st : SceneState) : Outcome :=
  if selected_objects st = [] then cancelled ("No objects selected") st
  else finished (host.snap_selected_to_cursor use_offset false st)

/-- Set the matrix of the first transform orientation with the given name
(the break-terminated loop of OBJECT_OT_create_transform_orientation). -/
def set_first_orientation_matrix (name : String) (m : Mat4) :
    List (String × Mat4) → List (String × Mat4)
  | [] => []
  | (n, old) :: rest =>
    if n = name then (n, m) :: rest else (n, old) :: set_first_orientation_matrix name m rest

/-- OBJECT_OT_create_transform_orientation.execute. -/
def OBJECT_OT_create_transform_orientation_execute (host : Host) (name : String)
    (st : SceneState) : Outcome :=
  let st1 := host.create_orientation name st
  let mtx := cursor_matrix host st1.cursor
  let st2 := { st1 with transform_orientations :=
    set_first_orientation_matrix name mtx st1.transform_orientations }
  ⟨OpResult.FINISHED,
   [(ReportLevel.INFO, "Created transform orientation \x27" ++ name ++ "\x27 from cursor")],
   st2⟩

/-- Body of the per-object loop of OBJECT_OT_align_objects_to_each_other:
give the object the active rotation, keeping world position and scale. -/
def align_object_to_rotation (host : Host) (active_rot : Euler) (o : SceneObject) : SceneObject :=
  let world_pos := o.matrix_world.to_translation
  let world_scale := o.matrix_world.to_scale host.sqrtF
  let new_matrix := (eulerToMat3 host.cosF host.sinF active_rot).to_4x4
  let new_matrix := new_matrix.setTranslation world_pos
  let new_matrix := { new_matrix with
    m00 := new_matrix.m00 * world_scale.x,
    m11 := new_matrix.m11 * world_scale.y,
    m22 := new_matrix.m22 * world_scale.z }
  { o with matrix_world := new_matrix }

/-- Indices of the selected objects other than the active object (the list
comprehension filtering obj != active). -/
def other_selected_indices (st : SceneState) : List Nat :=
  match st.active_object with
  | none => selected_indices st
  | some ai => (selected_indices st).filter (· ≠ ai)

/-- OBJECT_OT_align_objects_to_each_other.execute. -/
def OBJECT_OT_align_objects_to_each_other_execute (host : Host) (st : SceneState) : Outcome :=
  let others := other_selected_indices st
  match get_active_object st with
  | none => cancelled ("No active object") st
  | some active =>
    if others = [] then cancelled ("No other objects selected") st
    else
      let active_rot := host.mat3_to_euler active.matrix_world.to_3x3
      finished { st with objects :=
        st.objects.mapIdx (fun i o =>
          if i ∈ others then align_object_to_rotation host active_rot o else o) }

/-- Stable insertion into a key-sorted list, keeping earlier equal keys first
(the stability of the Python sort). -/
def insert_by_key (p : ℚ × Nat) : List (ℚ × Nat) → List (ℚ × Nat)
  | [] => [p]
  | q :: rest => if q.1 ≤ p.1 then q :: insert_by_key p rest else p :: q :: rest

/-- Stable sort by key, ascending (positions.sort(key=lambda x: x[0])). -/
def sort_by_key : List (ℚ × Nat) → List (ℚ × Nat)
  | [] => []
  | p :: rest => insert_by_key p (sort_by_key rest)

/-- Replacement of the object at one index of the scene list. -/
def list_update_at (i : Nat) (f : SceneObject → SceneObject) :
    List SceneObject → List SceneObject
  | [] => []
  | o :: rest =>
    match i with
    | 0 => f o :: rest
    | n + 1 => o :: list_update_at n f rest

/-- OBJECT_OT_distribute_along_cursor.execute. -/
def OBJECT_OT_distribute_along_cursor_execute (host : Host) (spacing : ℚ) (axis : Axis)
    (st : SceneState) : Outcome :=
  if (selected_objects st).length < 2 then cancelled ("Select at least 2 objects") st
  else
    let cursor := st.cursor
    let cmat := cursor_matrix host cursor
    let axis_idx : Nat := match axis with | Axis.X => 0 | Axis.Y => 1 | Axis.Z => 2
    let axis_vec := cmat.row3 axis_idx
    let positions := (st.objects.enum.filter (fun p => p.2.selected)).map
      (fun p => (((p.2.matrix_world.to_translation).sub cursor.location).dot axis_vec, p.1))
    let sorted := sort_by_key positions
    let newObjects := sorted.enum.foldl
      (fun objs (p : Nat × (ℚ × Nat)) =>
        let offset := (p.1 : ℚ) * spacing
        let new_pos := cursor.location.add (Vec3.smul offset axis_vec)
        list_update_at p.2.2 (fun o => { o with location := new_pos }) objs)
      st.objects
    finished { st with objects := newObjects }

/-- OBJECT_OT_copy_cursor_location.execute. -/
def OBJECT_OT_copy_cursor_location_execute (st : SceneState) : Outcome :=
  if selected_objects st = [] then cancelled ("No objects selected") st
  else
    let newObjs := st.objects.map (fun o =>
      if o.selected then { o with location := st.cursor.location } else o)
    finished { st with objects := newObjs }

/-- Normalization of a vector by its host-computed length, as the claim
describes it. -/
def normalize_vec (sqrtF : ℚ → ℚ) (v : Vec3) : Vec3 :=
  ⟨v.x / sqrtF v.len2, v.y / sqrtF v.len2, v.z / sqrtF v.len2⟩

/-- Arithmetic average of the selected face normals, as the claim words it:
the componentwise mean of the normals. -/
def average_normal (faces : List MeshFace) : Vec3 :=
  Vec3.smul (1 / (faces.length : ℚ)) (sum_face_normals faces)

/-- The cursor rotation claimed for cursor.align_to_surface: the Euler angles
of the rotation-difference between the normalized average normal and the
world up vector, except identity when nearly parallel to up. -/
def claimed_surface_rotation (host : Host) (faces : List MeshFace) : Euler :=
  let a := normalize_vec host.sqrtF (average_normal faces)
  let up : Vec3 := ⟨0, 0, 1⟩
  if |a.dot up| < 0.99 then
    host.mat3_to_euler (host.quat_to_mat3 (host.rotation_difference a up))
  else ⟨0, 0, 0⟩

/-- Componentwise mean of the selected object locations, as claimed for
cursor.set_to_selection_center. -/
def location_mean (objs : List SceneObject) : Vec3 :=
  Vec3.smul (1 / (objs.length : ℚ))
    (objs.foldl (fun (a : Vec3) o => ⟨a.x + o.location.x, a.y + o.location.y, a.z + o.location.z⟩)
      ⟨0, 0, 0⟩)

/-- Control returned to the host with one of the two result codes the add-on
uses. -/
def returns_to_host (o : Outcome) : Prop :=
  o.result = OpResult.FINISHED ∨ o.result = OpResult.CANCELLED

/-- The configured step in radians, negated for the NEG direction, as the
claims describe the rotation delta. -/
def step_delta (host : Host) (st : SceneState) (direction : Direction) : ℚ :=
  if direction = Direction.POS then get_step host st else -get_step host st

/-- An Euler with a delta added to exactly one axis component, the other two
components untouched and no normalization applied. -/
def euler_add_axis (e : Euler) (axis : Axis) (delta : ℚ) : Euler :=
  match axis with
  | Axis.X => ⟨e.x + delta, e.y, e.z⟩
  | Axis.Y => ⟨e.x, e.y + delta, e.z⟩
  | Axis.Z => ⟨e.x, e.y, e.z + delta⟩

/-- A failing execute that reported exactly one user-visible warning and left
the scene state unchanged. -/
def warns_and_preserves (o : Outcome) (st : SceneState) : Prop :=
  o.state = st ∧ ∃ m, o.reports = [(ReportLevel.WARNING, m)]

/-- Identity 4x4 matrix, used for concrete example states. -/
def mat4_id : Mat4 := ⟨1, 0, 0, 0, 0, 1, 0, 0, 0, 0, 1, 0, 0, 0, 0, 1⟩

/-- A concrete host instantiation used for witnesses and counterexamples. -/
def triv_host : Host where
  pi := 314159/100000
  sqrtF := fun q => if 0 < q then 1 else 0
  cosF := fun _ => 1
  sinF := fun _ => 0
  rotation_difference := fun _ _ => ⟨1, 0, 0, 0⟩
  quat_to_mat3 := fun _ => ⟨1, 0, 0, 0, 1, 0, 0, 0, 1⟩
  mat3_to_euler := fun _ => ⟨0, 0, 0⟩
  quat_to_euler := fun _ => ⟨0, 0, 0⟩
  origin_set := id
  snap_selected_to_cursor := fun _ _ => id
  snap_cursor_to_selected := id
  call_menu := fun _ => id
  create_orientation := fun _ => id

/-- A concrete scene with nothing selected and default settings. -/
def empty_state : SceneState :=
  ⟨Mode.OBJECT, ⟨⟨0, 0, 0⟩, ⟨0, 0, 0⟩⟩, default_props, [], none, [], [], [], false⟩

/-- A concrete edit-mesh scene whose two selected faces have opposite
normals, so the summed normal is zero. -/
def surface_zero_state : SceneState :=
  ⟨Mode.EDIT_MESH, ⟨⟨0, 0, 0⟩, ⟨0, 0, 0⟩⟩, default_props, [], none,
   [⟨true, ⟨1, 0, 0⟩⟩, ⟨true, ⟨-1, 0, 0⟩⟩], [], [], false⟩

/-- A concrete scene whose cursor rotation z component is 3 radians, near the
upper end of the normalized range. -/
def rot_state : SceneState :=
  ⟨Mode.OBJECT, ⟨⟨0, 0, 0⟩, ⟨0, 0, 3⟩⟩, default_props, [], none, [], [], [], false⟩

/-- A host whose square root is exact on the values arising in the concrete
surface-alignment scene, and whose Euler conversion is a recognizable
constant. -/
def c2_host : Host :=
  { triv_host with
    sqrtF := fun q => if q = 16 then 4 else if q = 4 then 2 else 0,
    mat3_to_euler := fun _ => ⟨7, 8, 9⟩ }

/-- A concrete edit-mesh scene with two selected faces whose summed normal is
(4,0,0). -/
def c2_state : SceneState :=
  ⟨Mode.EDIT_MESH, ⟨⟨0, 0, 0⟩, ⟨0, 0, 0⟩⟩, default_props, [], none,
   [⟨true, ⟨3, 0, 0⟩⟩, ⟨true, ⟨1, 0, 0⟩⟩], [], [], false⟩

/-- A concrete scene with two selected objects at known locations. -/
def c4_state : SceneState :=
  ⟨Mode.OBJECT, ⟨⟨0, 0, 0⟩, ⟨0, 0, 0⟩⟩, default_props,
   [⟨⟨1, 2, 3⟩, ⟨0, 0, 0⟩, mat4_id, true⟩, ⟨⟨3, 4, 5⟩, ⟨0, 0, 0⟩, mat4_id, true⟩],
   none, [], [], [], false⟩

/-- Helper: the squared length of a nonzero vector is positive. -/
theorem aux_len2_pos {v : Vec3} (h : v ≠ ⟨0, 0, 0⟩) : 0 < v.len2 := by
  rcases v with ⟨a, b, c⟩
  have hne : ¬(a = 0 ∧ b = 0 ∧ c = 0) := by
    rintro ⟨ha, hb, hc⟩
    exact h (by simp [ha, hb, hc])
  by_contra hle
  push_neg at hle
  have h0 : a ^ 2 + b ^ 2 + c ^ 2 = 0 := by
    have : 0 ≤ a ^ 2 + b ^ 2 + c ^ 2 := by positivity
    simpa [Vec3.len2] using le_antisymm (by simpa [Vec3.len2] using hle) this
  refine hne ⟨?_, ?_, ?_⟩
  · have : a ^ 2 = 0 := by nlinarith [sq_nonneg b, sq_nonneg c]
    exact (pow_eq_zero_iff two_ne_zero).mp this
  · have : b ^ 2 = 0 := by nlinarith [sq_nonneg a, sq_nonneg c]
    exact (pow_eq_zero_iff two_ne_zero).mp this
  · have : c ^ 2 = 0 := by nlinarith [sq_nonneg a, sq_nonneg b]
    exact (pow_eq_zero_iff two_ne_zero).mp this

/-- Helper: the wrapped angle lies within [-pi, pi] in absolute value. -/
theorem aux_abs_wrapAngle_le (p q : ℚ) (hp : 0 < p) : |wrapAngle p q| ≤ p := by
  have h2p : (0 : ℚ) < 2 * p := by linarith
  have key : wrapAngle p q = 2 * p * (q / (2 * p) - (round (q / (2 * p)) : ℚ)) := by
    unfold wrapAngle
    field_simp
  rw [key, abs_mul, abs_of_pos h2p]
  have h1 : |q / (2 * p) - (round (q / (2 * p)) : ℚ)| ≤ 1 / 2 := abs_sub_round _
  nlinarith

/-- Claim C5: cursor.reset_orientation always sets the 3D cursor Euler
rotation to exactly (0, 0, 0) and returns FINISHED, in every context and
regardless of selection. -/
theorem claim_C5 (st : SceneState) :
    (CURSOR_OT_reset_orientation_execute st).result = OpResult.FINISHED ∧
    (CURSOR_OT_reset_orientation_execute st).state.cursor.rotation_euler = ⟨0, 0, 0⟩ :=
  ⟨rfl, rfl⟩

/-- Claim C10: executing cursor.flip_axis twice in succession with the same
axis restores the cursor Euler rotation exactly, for every starting rotation
and every axis. -/
theorem claim_C10 (axis : Axis) (st : SceneState) :
    ((CURSOR_OT_flip_axis_execute axis
        (CURSOR_OT_flip_axis_execute axis st).state).state).cursor.rotation_euler =
      st.cursor.rotation_euler := by
  cases axis <;> simp [CURSOR_OT_flip_axis_execute, finished]

/-- Claim C3 counterexample: with the step set to 90 degrees and the cursor
rotation z component at 3 radians, cursor.rotate_axis around Z does not set
the z component to the prior value plus the step, because the result is
normalized back into [-pi, pi]. -/
theorem claim_C3_counterexample :
    (CURSOR_OT_rotate_axis_execute triv_host Axis.Z Direction.POS
        rot_state).state.cursor.rotation_euler.z ≠
      rot_state.cursor.rotation_euler.z + get_step triv_host rot_state := by
  norm_num [CURSOR_OT_rotate_axis_execute, rotate_euler, Euler.normalized, wrapAngle,
    get_step, radians, rot_state, triv_host, default_props, finished, round_eq]

/-- Claim C3 (amended): executing cursor.rotate_axis adds the configured step
(negated for NEG) to exactly the chosen axis component and then wraps every
component into [-pi, pi]; the other two components keep their prior values up
to that wrapping. -/
theorem claim_C3_amended (host : Host) (axis : Axis) (direction : Direction) (st : SceneState) :
    (CURSOR_OT_rotate_axis_execute host axis direction st).result = OpResult.FINISHED ∧
    (CURSOR_OT_rotate_axis_execute host axis direction st).state.cursor.rotation_euler =
      ⟨wrapAngle host.pi (st.cursor.rotation_euler.x +
          (if axis = Axis.X then step_delta host st direction else 0)),
        wrapAngle host.pi (st.cursor.rotation_euler.y +
          (if axis = Axis.Y then step_delta host st direction else 0)),
        wrapAngle host.pi (st.cursor.rotation_euler.z +
          (if axis = Axis.Z then step_delta host st direction else 0))⟩ := by
  cases axis <;> cases direction <;>
    simp [CURSOR_OT_rotate_axis_execute, rotate_euler, Euler.normalized, step_delta, finished]

/-- Claim C4: for every non-empty selection, cursor.set_to_selection_center
sets the cursor location to the componentwise mean of the selected objects
locations and changes nothing else in the scene state. -/
theorem claim_C4 (st : SceneState) (h : selected_objects st ≠ []) :
    (CURSOR_OT_set_to_selection_center_execute st).result = OpResult.FINISHED ∧
    (CURSOR_OT_set_to_selection_center_execute st).state =
      { st with cursor := { st.cursor with location := location_mean (selected_objects st) } } := by
  have hlen : 0 < (selected_objects st).length := List.length_pos.mpr h
  constructor
  · simp [CURSOR_OT_set_to_selection_center_execute, h, hlen, finished]
  · simp only [CURSOR_OT_set_to_selection_center_execute, if_neg h, if_pos hlen, finished]
    congr 2
    simp only [location_mean, Vec3.smul, Vec3.mk.injEq]
    refine ⟨by ring, by ring, by ring⟩

/-- Claim C4 witness: on a concrete scene with selected objects at (1,2,3)
and (3,4,5) the cursor lands at (2,3,4). -/
theorem claim_C4_witness :
    selected_objects c4_state ≠ [] ∧
    (CURSOR_OT_set_to_selection_center_execute c4_state).state.cursor.location = ⟨2, 3, 4⟩ := by
  have h : selected_objects c4_state ≠ [] := by
    norm_num [selected_objects, c4_state, List.filter]
    exact List.cons_ne_nil _ _
  refine ⟨h, ?_⟩
  rw [(claim_C4 c4_state h).2]
  norm_num [location_mean, selected_objects, c4_state, Vec3.smul, List.filter, List.foldl,
    Vec3.mk.injEq]

/-- Claim C6: the stored custom step is always within 0.1 to 360 degrees
(initially and after every host-clamped assignment), and for every scene the
step returned by get_step is strictly positive and at most 2*pi radians, for
the presets and for CUSTOM. -/
theorem claim_C6 (host : Host) (hpi : 0 < host.pi) :
    (1/10 ≤ default_props.custom_step ∧ default_props.custom_step ≤ 360) ∧
    (∀ (v : ℚ) (p : CursorAlignProps),
      1/10 ≤ (set_custom_step v p).custom_step ∧ (set_custom_step v p).custom_step ≤ 360) ∧
    (∀ st : SceneState, 1/10 ≤ st.props.custom_step → st.props.custom_step ≤ 360 →
      0 < get_step host st ∧ get_step host st ≤ 2 * host.pi) := by
  refine ⟨⟨by norm_num [default_props], by norm_num [default_props]⟩, ?_, ?_⟩
  · intro v p
    refine ⟨le_max_left _ _, max_le (by norm_num) (min_le_left _ _)⟩
  · intro st h1 h2
    rcases hrs : st.props.rotation_step <;>
      simp only [get_step, radians, hrs] <;>
      constructor
    · linarith
    · linarith
    · linarith
    · linarith
    · linarith
    · linarith
    · linarith
    · linarith
    · nlinarith
    · nlinarith

/-- Claim C6 witness: with a concrete host whose pi is positive and the
default settings, the step is positive and at most a full turn. -/
theorem claim_C6_witness :
    0 < get_step triv_host empty_state ∧ get_step triv_host empty_state ≤ 2 * triv_host.pi :=
  (claim_C6 triv_host (by norm_num [triv_host])).2.2 empty_state
    (by norm_num [empty_state, default_props]) (by norm_num [empty_state, default_props])

/-- Claim C9: the Euler returned by rotate_euler has every component within
[-pi, pi], hence cursor.rotate_axis keeps the cursor rotation components
within that bound; object.rotate_axis_step instead adds the delta to the
chosen component with no normalization, which lets object rotation
components grow without bound. -/
theorem claim_C9 (host : Host) (hpi : 0 < host.pi) :
    (∀ (e : Euler) (axis : Axis) (delta : ℚ),
      |(rotate_euler host.pi e axis delta).x| ≤ host.pi ∧
      |(rotate_euler host.pi e axis delta).y| ≤ host.pi ∧
      |(rotate_euler host.pi e axis delta).z| ≤ host.pi) ∧
    (∀ (axis : Axis) (direction : Direction) (st : SceneState),
      |(CURSOR_OT_rotate_axis_execute host axis direction
          st).state.cursor.rotation_euler.x| ≤ host.pi ∧
      |(CURSOR_OT_rotate_axis_execute host axis direction
          st).state.cursor.rotation_euler.y| ≤ host.pi ∧
      |(CURSOR_OT_rotate_axis_execute host axis direction
          st).state.cursor.rotation_euler.z| ≤ host.pi) ∧
    (∀ (axis : Axis) (direction : Direction) (st : SceneState),
      selected_objects st ≠ [] →
      (OBJECT_OT_rotate_axis_execute host axis direction st).state.objects.map
          (fun o => o.rotation_euler) =
        st.objects.map (fun o =>
          if o.selected then euler_add_axis o.rotation_euler axis (step_delta host st direction)
          else o.rotation_euler)) ∧
    (∀ B : ℚ, ∃ (st : SceneState) (o : SceneObject) (rest : List SceneObject),
      (OBJECT_OT_rotate_axis_execute host Axis.Z Direction.POS st).state.objects = o :: rest ∧
      B < o.rotation_euler.z) := by
  have hwrap : ∀ q, |wrapAngle host.pi q| ≤ host.pi := fun q => aux_abs_wrapAngle_le _ q hpi
  have hcomp : ∀ (e : Euler) (axis : Axis) (delta : ℚ),
      |(rotate_euler host.pi e axis delta).x| ≤ host.pi ∧
      |(rotate_euler host.pi e axis delta).y| ≤ host.pi ∧
      |(rotate_euler host.pi e axis delta).z| ≤ host.pi := by
    intro e axis delta
    cases axis <;> exact ⟨hwrap _, hwrap _, hwrap _⟩
  refine ⟨hcomp, ?_, ?_, ?_⟩
  · intro axis direction st
    simpa [CURSOR_OT_rotate_axis_execute, finished] using
      hcomp st.cursor.rotation_euler axis
        (if direction = Direction.POS then get_step host st else -(get_step host st))
  · intro axis direction st hsel
    simp only [OBJECT_OT_rotate_axis_execute, if_neg hsel, finished, List.map_map]
    refine List.map_congr_left ?_
    intro o _
    by_cases hs : o.selected <;> cases axis <;>
      simp [hs, euler_add_axis, step_delta, Function.comp]
  · intro B
    refine ⟨⟨Mode.OBJECT, ⟨⟨0, 0, 0⟩, ⟨0, 0, 0⟩⟩, default_props,
        [⟨⟨0, 0, 0⟩, ⟨0, 0, B + 1 - radians host 90⟩, mat4_id, true⟩], none, [], [], [], false⟩,
      ⟨⟨0, 0, 0⟩, ⟨0, 0, B + 1 - radians host 90 + radians host 90⟩, mat4_id, true⟩, [], ?_, ?_⟩
    · simp [OBJECT_OT_rotate_axis_execute, selected_objects, finished, get_step,
        default_props, List.filter]
    · show B < B + 1 - radians host 90 + radians host 90
      linarith

/-- Claim C9 witness: a concrete wrapped component stays within the bound. -/
theorem claim_C9_witness :
    |(rotate_euler triv_host.pi ⟨0, 0, 3⟩ Axis.Z (157/100)).z| ≤ triv_host.pi :=
  ((claim_C9 triv_host (by norm_num [triv_host])).1 ⟨0, 0, 3⟩ Axis.Z (157/100)).2.2

/-- Claim C8: apply_cursor_rotation_to_object keeps the translation component
of the object world matrix, and cursor.apply_to_object therefore preserves
every object world position. -/
theorem claim_C8 (host : Host) :
    (∀ (cursor : Cursor3D) (obj : SceneObject),
      (apply_cursor_rotation_to_object host cursor obj).matrix_world.to_translation =
        obj.matrix_world.to_translation) ∧
    (∀ st : SceneState,
      (CURSOR_OT_apply_to_object_execute host st).state.objects.map
          (fun o => o.matrix_world.to_translation) =
        st.objects.map (fun o => o.matrix_world.to_translation)) := by
  have h1 : ∀ (cursor : Cursor3D) (obj : SceneObject),
      (apply_cursor_rotation_to_object host cursor obj).matrix_world.to_translation =
        obj.matrix_world.to_translation := by
    intro c o
    simp [apply_cursor_rotation_to_object, Mat4.to_translation, Mat4.setTranslation]
  refine ⟨h1, ?_⟩
  intro st
  by_cases hsel : selected_objects st = []
  · simp [CURSOR_OT_apply_to_object_execute, hsel, cancelled]
  · simp only [CURSOR_OT_apply_to_object_execute, if_neg hsel, finished, List.map_map]
    refine List.map_congr_left ?_
    intro o _
    by_cases hs : o.selected <;> simp [hs, h1, Function.comp]

/-- Claim C2: in edit-mesh mode with faces selected and a non-zero summed
normal, cursor.align_to_surface finishes and sets the cursor rotation to the
Euler angles of the rotation-difference between the normalized average of
the selected face normals and the world up vector, except identity when the
averaged normal is within dot-product 0.99 of parallel to up.  The square
root is assumed exact on the two lengths involved. -/
theorem claim_C2 (host : Host) (st : SceneState)
    (hmode : st.mode = Mode.EDIT_MESH)
    (hsel : selected_faces st ≠ [])
    (hsum : sum_face_normals (selected_faces st) ≠ ⟨0, 0, 0⟩)
    (hpos : 0 < host.sqrtF (sum_face_normals (selected_faces st)).len2)
    (hhom : host.sqrtF (average_normal (selected_faces st)).len2 *
        ((selected_faces st).length : ℚ) =
      host.sqrtF (sum_face_normals (selected_faces st)).len2) :
    (CURSOR_OT_align_to_surface_execute host st).result = OpResult.FINISHED ∧
    (CURSOR_OT_align_to_surface_execute host st).state.cursor.rotation_euler =
      claimed_surface_rotation host (selected_faces st) := by
  have hnpos : (0 : ℚ) < ((selected_faces st).length : ℚ) := by
    exact_mod_cast List.length_pos.mpr hsel
  have hn0 : ((selected_faces st).length : ℚ) ≠ 0 := ne_of_gt hnpos
  have hL0 : host.sqrtF (sum_face_normals (selected_faces st)).len2 ≠ 0 := ne_of_gt hpos
  have hlen2 : (sum_face_normals (selected_faces st)).x ^ 2 +
      (sum_face_normals (selected_faces st)).y ^ 2 +
      (sum_face_normals (selected_faces st)).z ^ 2 =
      (sum_face_normals (selected_faces st)).len2 := rfl
  have hnorm : normalize_vec host.sqrtF (average_normal (selected_faces st)) =
      ⟨(sum_face_normals (selected_faces st)).x /
          host.sqrtF (sum_face_normals (selected_faces st)).len2,
        (sum_face_normals (selected_faces st)).y /
          host.sqrtF (sum_face_normals (selected_faces st)).len2,
        (sum_face_normals (selected_faces st)).z /
          host.sqrtF (sum_face_normals (selected_faces st)).len2⟩ := by
    have havg : host.sqrtF (average_normal (selected_faces st)).len2 =
        host.sqrtF (sum_face_normals (selected_faces st)).len2 /
          ((selected_faces st).length : ℚ) := by
      rw [eq_div_iff hn0]
      exact hhom
    simp only [normalize_vec, havg]
    simp only [average_normal, Vec3.smul, Vec3.mk.injEq]
    refine ⟨?_, ?_, ?_⟩ <;> field_simp [hn0, hL0]
  have hmode2 : ¬st.mode ≠ Mode.EDIT_MESH := by simp [hmode]
  simp only [CURSOR_OT_align_to_surface_execute, if_neg hmode2, if_neg hsel, hlen2, if_pos hpos,
    claimed_surface_rotation, hnorm]
  by_cases hdot : |Vec3.dot
      ⟨(sum_face_normals (selected_faces st)).x /
          host.sqrtF (sum_face_normals (selected_faces st)).len2,
        (sum_face_normals (selected_faces st)).y /
          host.sqrtF (sum_face_normals (selected_faces st)).len2,
        (sum_face_normals (selected_faces st)).z /
          host.sqrtF (sum_face_normals (selected_faces st)).len2⟩ ⟨0, 0, 1⟩| < 0.99
  · rw [if_pos hdot, if_pos hdot]
    exact ⟨rfl, rfl⟩
  · rw [if_neg hdot, if_neg hdot]
    exact ⟨rfl, rfl⟩

/-- Claim C2 witness: on a concrete edit-mesh scene with face normals (3,0,0)
and (1,0,0) and an exact square root, the operator finishes and the cursor
rotation takes the host-converted Euler value. -/
theorem claim_C2_witness :
    selected_faces c2_state ≠ [] ∧
    (CURSOR_OT_align_to_surface_execute c2_host c2_state).state.cursor.rotation_euler =
      ⟨7, 8, 9⟩ := by
  have hsel : selected_faces c2_state ≠ [] := by
    norm_num [selected_faces, c2_state, List.filter]
    exact List.cons_ne_nil _ _
  have hsum : sum_face_normals (selected_faces c2_state) = ⟨4, 0, 0⟩ := by
    norm_num [sum_face_normals, selected_faces, c2_state, List.filter, List.foldl]
  have h := claim_C2 c2_host c2_state rfl hsel
    (by rw [hsum]; norm_num [Vec3.mk.injEq])
    (by rw [hsum]; norm_num [Vec3.len2, c2_host, triv_host])
    (by
      have havg : average_normal (selected_faces c2_state) = ⟨2, 0, 0⟩ := by
        rw [average_normal, hsum]
        have hlen : (selected_faces c2_state).length = 2 := by
          norm_num [selected_faces, c2_state, List.filter]
        rw [hlen]
        norm_num [Vec3.smul]
      rw [havg, hsum]
      have hlen : (selected_faces c2_state).length = 2 := by
        norm_num [selected_faces, c2_state, List.filter]
      rw [hlen]
      norm_num [Vec3.len2, c2_host, triv_host])
  refine ⟨hsel, ?_⟩
  rw [h.2]
  have havg : average_normal (selected_faces c2_state) = ⟨2, 0, 0⟩ := by
    rw [average_normal, hsum]
    have hlen : (selected_faces c2_state).length = 2 := by
      norm_num [selected_faces, c2_state, List.filter]
    rw [hlen]
    norm_num [Vec3.smul]
  rw [claimed_surface_rotation, havg]
  norm_num [normalize_vec, Vec3.len2, Vec3.dot, c2_host, triv_host]

/-- Claim C7: every operator execute terminates and returns control to the
host with one of the two result codes, on every scene state and for every
choice of operator properties and host functions. -/
theorem claim_C7 (host : Host) (st : SceneState) (axis : Axis) (direction : Direction)
    (preset : Preset) (move_objects use_rotation use_offset : Bool) (name : String)
    (spacing : ℚ) :
    returns_to_host (CURSOR_OT_reset_orientation_execute st) ∧
    returns_to_host (CURSOR_OT_rotate_axis_execute host axis direction st) ∧
    returns_to_host (CURSOR_OT_flip_axis_execute axis st) ∧
    returns_to_host (CURSOR_OT_copy_from_object_execute host st) ∧
    returns_to_host (CURSOR_OT_apply_to_object_execute host st) ∧
    returns_to_host (CURSOR_OT_align_to_view_execute host st) ∧
    returns_to_host (CURSOR_OT_align_to_surface_execute host st) ∧
    returns_to_host (CURSOR_OT_set_preset_orientation_execute preset st) ∧
    returns_to_host (CURSOR_OT_set_to_selection_center_execute st) ∧
    returns_to_host (CURSOR_OT_set_to_view_center_execute st) ∧
    returns_to_host (CURSOR_OT_machine_tools_menu_execute host st) ∧
    returns_to_host (OBJECT_OT_origin_to_cursor_execute host st) ∧
    returns_to_host (OBJECT_OT_rotate_axis_execute host axis direction st) ∧
    returns_to_host (OBJECT_OT_reset_orientation_execute st) ∧
    returns_to_host (OBJECT_OT_align_to_cursor_execute host move_objects use_rotation st) ∧
    returns_to_host (OBJECT_OT_snap_cursor_to_selected_execute host st) ∧
    returns_to_host (OBJECT_OT_snap_selected_to_cursor_execute host use_offset st) ∧
    returns_to_host (OBJECT_OT_create_transform_orientation_execute host name st) ∧
    returns_to_host (OBJECT_OT_align_objects_to_each_other_execute host st) ∧
    returns_to_host (OBJECT_OT_distribute_along_cursor_execute host spacing axis st) ∧
    returns_to_host (OBJECT_OT_copy_cursor_location_execute st) := by
  refine ⟨?_, ?_, ?_, ?_, ?_, ?_, ?_, ?_, ?_, ?_, ?_, ?_, ?_, ?_, ?_, ?_, ?_, ?_, ?_, ?_, ?_⟩
  · exact Or.inl rfl
  · exact Or.inl rfl
  · exact Or.inl rfl
  · unfold CURSOR_OT_copy_from_object_execute
    rcases get_active_object st with _ | obj <;> simp [returns_to_host, cancelled, finished]
  · unfold CURSOR_OT_apply_to_object_execute
    split <;> simp [returns_to_host, cancelled, finished]
  · unfold CURSOR_OT_align_to_view_execute
    rcases find_view_euler host st with _ | eul <;> simp [returns_to_host, cancelled, finished]
  · unfold CURSOR_OT_align_to_surface_execute returns_to_host
    by_cases h1 : st.mode ≠ Mode.EDIT_MESH
    · simp [h1, cancelled]
    · rw [if_neg h1]
      by_cases h2 : selected_faces st = []
      · simp [h2, cancelled]
      · rw [if_neg h2]
        by_cases h3 : 0 < host.sqrtF ((sum_face_normals (selected_faces st)).x ^ 2 +
            (sum_face_normals (selected_faces st)).y ^ 2 +
            (sum_face_normals (selected_faces st)).z ^ 2)
        · rw [if_pos h3]
          simp only []
          split <;> simp [finished]
        · rw [if_neg h3]
          simp [cancelled]
  · exact Or.inl rfl
  · unfold CURSOR_OT_set_to_selection_center_execute returns_to_host
    by_cases h1 : selected_objects st = []
    · simp [h1, cancelled]
    · rw [if_neg h1]
      simp only []
      split <;> simp [finished]
  · exact Or.inl rfl
  · exact Or.inl rfl
  · unfold OBJECT_OT_origin_to_cursor_execute
    split <;> simp [returns_to_host, cancelled]
  · unfold OBJECT_OT_rotate_axis_execute
    split <;> simp [returns_to_host, cancelled, finished]
  · unfold OBJECT_OT_reset_orientation_execute
    split <;> simp [returns_to_host, cancelled, finished]
  · unfold OBJECT_OT_align_to_cursor_execute
    split <;> simp [returns_to_host, cancelled, finished]
  · unfold OBJECT_OT_snap_cursor_to_selected_execute
    split <;> simp [returns_to_host, cancelled, finished]
  · unfold OBJECT_OT_snap_selected_to_cursor_execute
    split <;> simp [returns_to_host, cancelled, finished]
  · exact Or.inl rfl
  · unfold OBJECT_OT_align_objects_to_each_other_execute returns_to_host
    rcases hact : get_active_object st with _ | obj <;> simp only [hact]
    · simp [cancelled]
    · split_ifs <;> simp [cancelled, finished]
  · unfold OBJECT_OT_distribute_along_cursor_execute
    split <;> simp [returns_to_host, cancelled, finished]
  · unfold OBJECT_OT_copy_cursor_location_execute
    split <;> simp [returns_to_host, cancelled, finished]

/-- Claim C1 counterexample: cursor.align_to_surface cancels on a scene that
is in edit-mesh mode with faces selected (the summed face normals are zero),
so missing selection or context is not the only failure mode. -/
theorem claim_C1_counterexample :
    (CURSOR_OT_align_to_surface_execute triv_host surface_zero_state).result =
      OpResult.CANCELLED ∧
    surface_zero_state.mode = Mode.EDIT_MESH ∧
    selected_faces surface_zero_state ≠ [] := by
  refine ⟨?_, rfl, ?_⟩
  · norm_num [CURSOR_OT_align_to_surface_execute, selected_faces, sum_face_normals,
      surface_zero_state, triv_host, cancelled, List.filter, List.foldl]
    split <;> rfl
  · norm_num [selected_faces, surface_zero_state, List.filter]
    exact List.cons_ne_nil _ _

/-- Claim C1 (amended): every operator with a required selection or context
cancels exactly when that requirement is missing, reporting one warning and
leaving the scene state unchanged; the remaining operators always finish.
The one failure mode beyond missing selection or context is
cursor.align_to_surface cancelling when the selected face normals sum to
zero, which also warns and leaves the state unchanged. -/
theorem claim_C1 (host : Host)
    (hsq0 : host.sqrtF 0 = 0)
    (hsqpos : ∀ q : ℚ, 0 < q → 0 < host.sqrtF q)
    (st : SceneState) (axis : Axis) (direction : Direction) (preset : Preset)
    (move_objects use_rotation use_offset : Bool) (name : String) (spacing : ℚ) :
    (CURSOR_OT_reset_orientation_execute st).result = OpResult.FINISHED ∧
    (CURSOR_OT_rotate_axis_execute host axis direction st).result = OpResult.FINISHED ∧
    (CURSOR_OT_flip_axis_execute axis st).result = OpResult.FINISHED ∧
    (CURSOR_OT_set_preset_orientation_execute preset st).result = OpResult.FINISHED ∧
    (CURSOR_OT_set_to_view_center_execute st).result = OpResult.FINISHED ∧
    (CURSOR_OT_machine_tools_menu_execute host st).result = OpResult.FINISHED ∧
    (OBJECT_OT_create_transform_orientation_execute host name st).result = OpResult.FINISHED ∧
    (((CURSOR_OT_copy_from_object_execute host st).result = OpResult.CANCELLED ↔
        get_active_object st = none) ∧
      (get_active_object st = none →
        warns_and_preserves (CURSOR_OT_copy_from_object_execute host st) st)) ∧
    (((CURSOR_OT_apply_to_object_execute host st).result = OpResult.CANCELLED ↔
        selected_objects st = []) ∧
      (selected_objects st = [] →
        warns_and_preserves (CURSOR_OT_apply_to_object_execute host st) st)) ∧
    (((CURSOR_OT_align_to_view_execute host st).result = OpResult.CANCELLED ↔
        find_view_euler host st = none) ∧
      (find_view_euler host st = none →
        warns_and_preserves (CURSOR_OT_align_to_view_execute host st) st)) ∧
    (((CURSOR_OT_align_to_surface_execute host st).result = OpResult.CANCELLED ↔
        (st.mode ≠ Mode.EDIT_MESH ∨ selected_faces st = [] ∨
          sum_face_normals (selected_faces st) = ⟨0, 0, 0⟩)) ∧
      ((st.mode ≠ Mode.EDIT_MESH ∨ selected_faces st = [] ∨
          sum_face_normals (selected_faces st) = ⟨0, 0, 0⟩) →
        warns_and_preserves (CURSOR_OT_align_to_surface_execute host st) st)) ∧
    (((CURSOR_OT_set_to_selection_center_execute st).result = OpResult.CANCELLED ↔
        selected_objects st = []) ∧
      (selected_objects st = [] →
        warns_and_preserves (CURSOR_OT_set_to_selection_center_execute st) st)) ∧
    (((OBJECT_OT_origin_to_cursor_execute host st).result = OpResult.CANCELLED ↔
        selected_objects st = []) ∧
      (selected_objects st = [] →
        warns_and_preserves (OBJECT_OT_origin_to_cursor_execute host st) st)) ∧
    (((OBJECT_OT_rotate_axis_execute host axis direction st).result = OpResult.CANCELLED ↔
        selected_objects st = []) ∧
      (selected_objects st = [] →
        warns_and_preserves (OBJECT_OT_rotate_axis_execute host axis direction st) st)) ∧
    (((OBJECT_OT_reset_orientation_execute st).result = OpResult.CANCELLED ↔
        selected_objects st = []) ∧
      (selected_objects st = [] →
        warns_and_preserves (OBJECT_OT_reset_orientation_execute st) st)) ∧
    (((OBJECT_OT_align_to_cursor_execute host move_objects use_rotation st).result =
        OpResult.CANCELLED ↔ selected_objects st = []) ∧
      (selected_objects st = [] →
        warns_and_preserves (OBJECT_OT_align_to_cursor_execute host move_objects use_rotation st)
          st)) ∧
    (((OBJECT_OT_snap_cursor_to_selected_execute host st).result = OpResult.CANCELLED ↔
        (selected_objects st = [] ∧ st.mode ≠ Mode.EDIT_MESH)) ∧
      ((selected_objects st = [] ∧ st.mode ≠ Mode.EDIT_MESH) →
        warns_and_preserves (OBJECT_OT_snap_cursor_to_selected_execute host st) st)) ∧
    (((OBJECT_OT_snap_selected_to_cursor_execute host use_offset st).result =
        OpResult.CANCELLED ↔ selected_objects st = []) ∧
      (selected_objects st = [] →
        warns_and_preserves (OBJECT_OT_snap_selected_to_cursor_execute host use_offset st) st)) ∧
    (((OBJECT_OT_align_objects_to_each_other_execute host st).result = OpResult.CANCELLED ↔
        (get_active_object st = none ∨ other_selected_indices st = [])) ∧
      ((get_active_object st = none ∨ other_selected_indices st = []) →
        warns_and_preserves (OBJECT_OT_align_objects_to_each_other_execute host st) st)) ∧
    (((OBJECT_OT_distribute_along_cursor_execute host spacing axis st).result =
        OpResult.CANCELLED ↔ (selected_objects st).length < 2) ∧
      ((selected_objects st).length < 2 →
        warns_and_preserves (OBJECT_OT_distribute_along_cursor_execute host spacing axis st)
          st)) ∧
    (((OBJECT_OT_copy_cursor_location_execute st).result = OpResult.CANCELLED ↔
        selected_objects st = []) ∧
      (selected_objects st = [] →
        warns_and_preserves (OBJECT_OT_copy_cursor_location_execute st) st)) := by
  have hcopy : ((CURSOR_OT_copy_from_object_execute host st).result = OpResult.CANCELLED ↔
      get_active_object st = none) ∧
      (get_active_object st = none →
        warns_and_preserves (CURSOR_OT_copy_from_object_execute host st) st) := by
    rcases hact : get_active_object st with _ | obj <;>
      simp [CURSOR_OT_copy_from_object_execute, hact, cancelled, finished, warns_and_preserves]
  have happly : ((CURSOR_OT_apply_to_object_execute host st).result = OpResult.CANCELLED ↔
      selected_objects st = []) ∧
      (selected_objects st = [] →
        warns_and_preserves (CURSOR_OT_apply_to_object_execute host st) st) := by
    by_cases hsel : selected_objects st = [] <;>
      simp [CURSOR_OT_apply_to_object_execute, hsel, cancelled, finished, warns_and_preserves]
  have hview : ((CURSOR_OT_align_to_view_execute host st).result = OpResult.CANCELLED ↔
      find_view_euler host st = none) ∧
      (find_view_euler host st = none →
        warns_and_preserves (CURSOR_OT_align_to_view_execute host st) st) := by
    rcases hfv : find_view_euler host st with _ | eul <;>
      simp [CURSOR_OT_align_to_view_execute, hfv, cancelled, finished, warns_and_preserves]
  have hsurface : ((CURSOR_OT_align_to_surface_execute host st).result = OpResult.CANCELLED ↔
      (st.mode ≠ Mode.EDIT_MESH ∨ selected_faces st = [] ∨
        sum_face_normals (selected_faces st) = ⟨0, 0, 0⟩)) ∧
      ((st.mode ≠ Mode.EDIT_MESH ∨ selected_faces st = [] ∨
        sum_face_normals (selected_faces st) = ⟨0, 0, 0⟩) →
        warns_and_preserves (CURSOR_OT_align_to_surface_execute host st) st) := by
    by_cases h1 : st.mode = Mode.EDIT_MESH
    · by_cases h2 : selected_faces st = []
      · simp [CURSOR_OT_align_to_surface_execute, h1, h2, cancelled, warns_and_preserves]
      · by_cases h3 : sum_face_normals (selected_faces st) = ⟨0, 0, 0⟩
        · have hlen0 : (sum_face_normals (selected_faces st)).x ^ 2 +
              (sum_face_normals (selected_faces st)).y ^ 2 +
              (sum_face_normals (selected_faces st)).z ^ 2 = 0 := by
            rw [h3]
            norm_num
          simp [CURSOR_OT_align_to_surface_execute, h1, h2, h3, hlen0, hsq0, cancelled,
            warns_and_preserves]
        · have hlpos : 0 < (sum_face_normals (selected_faces st)).len2 := aux_len2_pos h3
          have hpos2 : 0 < host.sqrtF ((sum_face_normals (selected_faces st)).x ^ 2 +
              (sum_face_normals (selected_faces st)).y ^ 2 +
              (sum_face_normals (selected_faces st)).z ^ 2) := hsqpos _ hlpos
          have hres : (CURSOR_OT_align_to_surface_execute host st).result =
              OpResult.FINISHED := by
            unfold CURSOR_OT_align_to_surface_execute
            rw [if_neg (by simp [h1]), if_neg h2]
            simp only []
            rw [if_pos hpos2]
            split <;> rfl
          constructor
          · rw [hres]
            simp [h1, h2, h3]
          · intro hcases
            rcases hcases with hc | hc | hc
            · exact absurd h1 hc
            · exact absurd hc h2
            · exact absurd hc h3
    · have h1' : st.mode ≠ Mode.EDIT_MESH := h1
      simp [CURSOR_OT_align_to_surface_execute, h1', cancelled, warns_and_preserves]
  have hcenter : ((CURSOR_OT_set_to_selection_center_execute st).result = OpResult.CANCELLED ↔
      selected_objects st = []) ∧
      (selected_objects st = [] →
        warns_and_preserves (CURSOR_OT_set_to_selection_center_execute st) st) := by
    by_cases hsel : selected_objects st = []
    · simp [CURSOR_OT_set_to_selection_center_execute, hsel, cancelled, warns_and_preserves]
    · have hres : (CURSOR_OT_set_to_selection_center_execute st).result =
          OpResult.FINISHED := by
        unfold CURSOR_OT_set_to_selection_center_execute
        rw [if_neg hsel]
        simp only []
        split <;> rfl
      rw [hres]
      simp [hsel]
  have horigin : ((OBJECT_OT_origin_to_cursor_execute host st).result = OpResult.CANCELLED ↔
      selected_objects st = []) ∧
      (selected_objects st = [] →
        warns_and_preserves (OBJECT_OT_origin_to_cursor_execute host st) st) := by
    by_cases hsel : selected_objects st = [] <;>
      simp [OBJECT_OT_origin_to_cursor_execute, hsel, cancelled, warns_and_preserves]
  have hrotobj : ((OBJECT_OT_rotate_axis_execute host axis direction st).result =
      OpResult.CANCELLED ↔ selected_objects st = []) ∧
      (selected_objects st = [] →
        warns_and_preserves (OBJECT_OT_rotate_axis_execute host axis direction st) st) := by
    by_cases hsel : selected_objects st = [] <;>
      simp [OBJECT_OT_rotate_axis_execute, hsel, cancelled, finished, warns_and_preserves]
  have hresetobj : ((OBJECT_OT_reset_orientation_execute st).result = OpResult.CANCELLED ↔
      selected_objects st = []) ∧
      (selected_objects st = [] →
        warns_and_preserves (OBJECT_OT_reset_orientation_execute st) st) := by
    by_cases hsel : selected_objects st = [] <;>
      simp [OBJECT_OT_reset_orientation_execute, hsel, cancelled, finished, warns_and_preserves]
  have haligncur : ((OBJECT_OT_align_to_cursor_execute host move_objects use_rotation st).result =
      OpResult.CANCELLED ↔ selected_objects st = []) ∧
      (selected_objects st = [] →
        warns_and_preserves (OBJECT_OT_align_to_cursor_execute host move_objects use_rotation st)
          st) := by
    by_cases hsel : selected_objects st = [] <;>
      simp [OBJECT_OT_align_to_cursor_execute, hsel, cancelled, finished, warns_and_preserves]
  have hsnapc : ((OBJECT_OT_snap_cursor_to_selected_execute host st).result =
      OpResult.CANCELLED ↔ (selected_objects st = [] ∧ st.mode ≠ Mode.EDIT_MESH)) ∧
      ((selected_objects st = [] ∧ st.mode ≠ Mode.EDIT_MESH) →
        warns_and_preserves (OBJECT_OT_snap_cursor_to_selected_execute host st) st) := by
    by_cases hc : selected_objects st = [] ∧ st.mode ≠ Mode.EDIT_MESH
    · simp [OBJECT_OT_snap_cursor_to_selected_execute, hc, cancelled, warns_and_preserves]
    · simp only [OBJECT_OT_snap_cursor_to_selected_execute, if_neg hc, finished]
      simp [hc]
  have hsnaps : ((OBJECT_OT_snap_selected_to_cursor_execute host use_offset st).result =
      OpResult.CANCELLED ↔ selected_objects st = []) ∧
      (selected_objects st = [] →
        warns_and_preserves (OBJECT_OT_snap_selected_to_cursor_execute host use_offset st)
          st) := by
    by_cases hsel : selected_objects st = [] <;>
      simp [OBJECT_OT_snap_selected_to_cursor_execute, hsel, cancelled, finished,
        warns_and_preserves]
  have halign2 : ((OBJECT_OT_align_objects_to_each_other_execute host st).result =
      OpResult.CANCELLED ↔
      (get_active_object st = none ∨ other_selected_indices st = [])) ∧
      ((get_active_object st = none ∨ other_selected_indices st = []) →
        warns_and_preserves (OBJECT_OT_align_objects_to_each_other_execute host st) st) := by
    rcases hact : get_active_object st with _ | obj
    · simp [OBJECT_OT_align_objects_to_each_other_execute, hact, cancelled, warns_and_preserves]
    · by_cases hoth : other_selected_indices st = [] <;>
        simp [OBJECT_OT_align_objects_to_each_other_execute, hact, hoth, cancelled, finished,
          warns_and_preserves]
  have hdist : ((OBJECT_OT_distribute_along_cursor_execute host spacing axis st).result =
      OpResult.CANCELLED ↔ (selected_objects st).length < 2) ∧
      ((selected_objects st).length < 2 →
        warns_and_preserves (OBJECT_OT_distribute_along_cursor_execute host spacing axis st)
          st) := by
    by_cases hlt : (selected_objects st).length < 2 <;>
      simp [OBJECT_OT_distribute_along_cursor_execute, hlt, cancelled, finished,
        warns_and_preserves]
  have hcopyloc : ((OBJECT_OT_copy_cursor_location_execute st).result = OpResult.CANCELLED ↔
      selected_objects st = []) ∧
      (selected_objects st = [] →
        warns_and_preserves (OBJECT_OT_copy_cursor_location_execute st) st) := by
    by_cases hsel : selected_objects st = [] <;>
      simp [OBJECT_OT_copy_cursor_location_execute, hsel, cancelled, finished,
        warns_and_preserves]
  exact ⟨rfl, rfl, rfl, rfl, rfl, rfl, rfl, hcopy, happly, hview, hsurface, hcenter, horigin,
    hrotobj, hresetobj, haligncur, hsnapc, hsnaps, halign2, hdist, hcopyloc⟩

/-- Claim C1 witness: on a concrete empty scene, cursor.set_to_selection_center
cancels because nothing is selected. -/
theorem claim_C1_witness :
    (CURSOR_OT_set_to_selection_center_execute empty_state).result = OpResult.CANCELLED := by
  have h := claim_C1 triv_host (by norm_num [triv_host])
    (by intro q hq; simp [triv_host, hq]) empty_state Axis.X Direction.POS Preset.FRONT
    true true true ("c") 1
  exact (h.2.2.2.2.2.2.2.2.2.2.2.1.1).mpr (by simp [selected_objects, empty_state])

end CursorAlign
